import Mathlib

/-!
Verification of the notification dispatch service
(`backend/notifications/notifications.py`).

The embedding models time as integer seconds (UTC), the persistence store as a
pure record of functions, and the pydantic wire format by the parse result a
raw message would produce.  External collaborators (DB manager, email sender,
unsubscribe-link generator, the prisma enum) are not under the source tree;
where one is needed it is modelled from the spec and marked as such.
-/

namespace Notifications

/-- Modelled from the spec: the delivery-strategy enum `QueueType`
(`strategy ∈ \x7bIMMEDIATE, ADMIN, BATCH, SUMMARY, BACKOFF\x7d`, spec §3);
its definition lives in backend/data/notifications.py, which is not under src/. -/
inductive QueueType
  | IMMEDIATE
  | ADMIN
  | BATCH
  | SUMMARY
  | BACKOFF
deriving DecidableEq, Repr

/-- Modelled from the spec: the closed enum `prisma.enums.NotificationType` is
generated code not under src/.  We include the exemplar members the spec names:
AGENT_RUN (immediate, scenario S1), BATCH_T (batch, scenario S3),
DAILY_SUMMARY and WEEKLY_SUMMARY (summary, §4.7), and REFUND_REQUEST
(admin; the source routes admin mail to `refund_notification_email`). -/
inductive NotificationType
  | AGENT_RUN
  | BATCH_T
  | DAILY_SUMMARY
  | WEEKLY_SUMMARY
  | REFUND_REQUEST
deriving DecidableEq, Repr

/-- A notification event as stored in a user's batch row.  `valid` models
whether `NotificationEventModel[...].model_validate` succeeds on this stored
row when it is read back (schema validation is external pydantic code). -/
structure DBNotificationEvent where
  type : NotificationType
  data : String
  created_at : Int
  valid : Bool
deriving DecidableEq, Repr

/-- A validated incoming `NotificationEventModel`. -/
structure Event where
  user_id : String
  type : NotificationType
  data : String
  created_at : Int
deriving DecidableEq, Repr

/-- Summary params payloads (`DailySummaryParams` / `WeeklySummaryParams`),
modelled from the spec §3: `\x7bdate\x7d` or `\x7bstart_date, end_date\x7d`. -/
inductive BaseSummaryParams
  | daily (date : Int)
  | weekly (start_date : Int) (end_date : Int)
deriving DecidableEq, Repr

/-- A validated incoming `SummaryParamsEventModel`. -/
structure SummaryEvent where
  user_id : String
  type : NotificationType
  data : BaseSummaryParams
deriving DecidableEq, Repr

/-- A raw broker message, modelled by what pydantic validation would produce
for it: `parse_event` is the result of the `_parse_message` path
(`BaseEventModel` envelope then `NotificationEventModel`), `parse_summary`
the result of the `SummaryParamsEventModel` path used by `_process_summary`.
`none` models a decode or schema-validation failure. -/
structure RawMessage where
  parse_event : Option Event
  parse_summary : Option SummaryEvent

/-- Modelled from the spec §6: the persistence store consumed through the
DatabaseManagerClient (not under src/).  `batches` maps a `(user_id, type)`
key to the ordered list of stored events (`[]` = no persisted row, spec
invariant (e)); `batch_keys` enumerates the persisted rows, which is what
`get_all_batches_by_type` walks. -/
structure Store where
  emails : String → Option String
  verified : String → Bool
  prefs : String → NotificationType → Option Bool
  batches : String → NotificationType → List DBNotificationEvent
  batch_keys : List (String × NotificationType)
  active_users : Int → Int → List String

/-- The ambient state a handler runs against: the store, the current UTC time
(`datetime.now(tz=timezone.utc)`), and whether `send_templated` raises on
this call (transport failure of the external email sender). -/
structure World where
  store : Store
  now : Int
  sendFails : Bool

/-- Converting a validated event into its stored row
(`create_or_add_to_user_notification_batch` persists it); a row written from
a just-validated event validates when read back. -/
def toDBEvent (e : Event) : DBNotificationEvent :=
  ⟨e.type, e.data, e.created_at, true⟩

/-- Store operation `create_or_add_to_user_notification_batch`: atomic append
(spec §6: append_to_batch; invariant (c): list order is insertion order). -/
def create_or_add_to_user_notification_batch (s : Store) (u : String)
    (t : NotificationType) (e : Event) : Store :=
  { s with
    batches := fun u' t' =>
      if u' = u ∧ t' = t then s.batches u t ++ [toDBEvent e] else s.batches u' t'
    batch_keys :=
      if (u, t) ∈ s.batch_keys then s.batch_keys else s.batch_keys ++ [(u, t)] }

/-- Store operation `empty_user_notification_batch`: atomically destroys the
`(user_id, type)` batch row. -/
def empty_user_notification_batch (s : Store) (u : String)
    (t : NotificationType) : Store :=
  { s with
    batches := fun u' t' => if u' = u ∧ t' = t then [] else s.batches u' t'
    batch_keys := s.batch_keys.filter (fun k => decide (k ≠ (u, t))) }

/-- Store operation `get_user_notification_oldest_message_in_batch`, used only
through its `created_at` field: the minimal `created_at` in the batch, `none`
when no row exists (spec glossary: the oldest event's timestamp). -/
def oldest_created_at (l : List DBNotificationEvent) : Option Int :=
  match l.map (fun e => e.created_at) with
  | [] => none
  | x :: xs => some (xs.foldl min x)

/-- Modelled from the spec: `get_batch_delay` lives in
backend/data/notifications.py (not under src/); scenario S3 fixes
`max_delay(BATCH_T) = 5m`.  Durations are in seconds. -/
def get_batch_delay : NotificationType → Int
  | .BATCH_T => 300
  | _ => 0

/-- Modelled from the spec: the unsubscribe-link generator
(`generate_unsubscribe_link`, backend/data/user.py) is an external
collaborator; only the value is threaded through to the email sender. -/
def generate_unsubscribe_link (user_id : String) : String :=
  "unsubscribe:" ++ user_id

/-- Modelled from the spec: `settings.config.refund_notification_email`, the
configured admin address. -/
def refund_notification_email : String :=
  "admin@example.com"

/-- `_should_email_user_based_on_preference` (source lines 412-423): email
verification AND per-type preference, absent preference defaulting to true. -/
def _should_email_user_based_on_preference (s : Store) (user_id : String)
    (event_type : NotificationType) : Bool :=
  (s.verified user_id) && ((s.prefs user_id event_type).getD true)

/-- `_should_batch` (source lines 505-529): append the event to the batch,
then test whether the oldest stored message has aged out.  Returns the store
after the append alongside the decision (the append is a side effect that
persists on every path). -/
def _should_batch (w : World) (user_id : String)
    (event_type : NotificationType) (event : Event) : Bool × Store :=
  let s := create_or_add_to_user_notification_batch w.store user_id event_type event
  match oldest_created_at (s.batches user_id event_type) with
  | none => (false, s)
  | some oldest_age =>
    if oldest_age + get_batch_delay event_type < w.now then (true, s) else (false, s)

/-- `_parse_message` (source lines 531-539): two-phase pydantic validation,
`none` on failure; the raw message is modelled by its parse result. -/
def _parse_message (m : RawMessage) : Option Event :=
  m.parse_event

/-- One recorded invocation of `send_templated` with a list payload (batch
flush); recorded even when the transport then raises. -/
structure BatchSent where
  notification : NotificationType
  user_email : String
  data : List DBNotificationEvent
  user_unsub_link : String
deriving DecidableEq, Repr

/-- One recorded invocation of `send_templated` with a single-event payload. -/
structure ImmediateSent where
  notification : NotificationType
  user_email : String
  data : Event
  user_unsub_link : String
deriving DecidableEq, Repr

/-- One recorded invocation of `send_templated` from the admin handler (no
unsubscribe link is passed there). -/
structure AdminSent where
  notification : NotificationType
  user_email : String
  data : Event
deriving DecidableEq, Repr

/-- `_process_immediate` (source lines 555-588).  Returns the processed flag
and the `send_templated` invocations. -/
def _process_immediate (w : World) (m : RawMessage) : Bool × List ImmediateSent :=
  match _parse_message m with
  | none => (false, [])
  | some event =>
    match w.store.emails event.user_id with
    | none => (false, [])
    | some recipient_email =>
      if !(_should_email_user_based_on_preference w.store event.user_id event.type) then
        (true, [])
      else
        let sent : ImmediateSent :=
          ⟨event.type, recipient_email, event, generate_unsubscribe_link event.user_id⟩
        if w.sendFails then (false, [sent]) else (true, [sent])

/-- `_process_admin_message` (source lines 541-553): sends to the configured
admin address; neither eligibility nor preferences are consulted. -/
def _process_admin_message (w : World) (m : RawMessage) : Bool × List AdminSent :=
  match _parse_message m with
  | none => (false, [])
  | some event =>
    let sent : AdminSent := ⟨event.type, refund_notification_email, event⟩
    if w.sendFails then (false, [sent]) else (true, [sent])

/-- `_process_batch` (source lines 590-648).  Returns the processed flag, the
resulting store, and the `send_templated` invocations.  An exception while
re-validating a stored row (some row has `valid = false`) aborts before the
send; a transport exception aborts after the invocation but before the
`empty_user_notification_batch`. -/
def _process_batch (w : World) (m : RawMessage) : Bool × Store × List BatchSent :=
  match _parse_message m with
  | none => (false, w.store, [])
  | some event =>
    match w.store.emails event.user_id with
    | none => (false, w.store, [])
    | some recipient_email =>
      if !(_should_email_user_based_on_preference w.store event.user_id event.type) then
        (true, w.store, [])
      else
        match _should_batch w event.user_id event.type event with
        | (should_send, s1) =>
          if !should_send then
            (false, s1, [])
          else
            let rows := s1.batches event.user_id event.type
            if rows = [] then
              (false, s1, [])
            else if rows.all (fun r => r.valid) then
              let sent : BatchSent :=
                ⟨event.type, recipient_email, rows, generate_unsubscribe_link event.user_id⟩
              if w.sendFails then
                (false, s1, [sent])
              else
                (true, empty_user_notification_batch s1 event.user_id event.type, [sent])
            else
              (false, s1, [])

/-- The per-type fields of `DailySummaryData` / `WeeklySummaryData` (spec §3).
Monetary amounts and the mean are rationals (Python floats carry exact values
on these inputs). -/
structure SummaryFields where
  total_credits_used : ℚ
  total_executions : Nat
  most_used_agent : String
  total_execution_time : Int
  successful_runs : Nat
  failed_runs : Nat
  average_execution_time : ℚ
  cost_breakdown : List (String × ℚ)
deriving DecidableEq, Repr

/-- `BaseSummaryData`: the rendered aggregate, daily or weekly, with its
window. -/
inductive BaseSummaryData
  | daily (fields : SummaryFields) (date : Int)
  | weekly (fields : SummaryFields) (start_date : Int) (end_date : Int)
deriving DecidableEq, Repr

/-- `len([run for run in runs if run["status"] == "COMPLETED"])` (source
line 459); a run is modelled by its status string. -/
def successful_runs_of (runs : List String) : Nat :=
  (runs.filter (fun run => decide (run = "COMPLETED"))).length

/-- `len([run for run in runs if run["status"] != "COMPLETED"])` (source
line 460). -/
def failed_runs_of (runs : List String) : Nat :=
  (runs.filter (fun run => decide (run ≠ "COMPLETED"))).length

/-- `sum(execution_times) / len(execution_times) if execution_times else 0`
(source lines 461-463). -/
def average_execution_time_of (execution_times : List Int) : ℚ :=
  if execution_times ≠ [] then
    ((execution_times.sum : ℚ) / (execution_times.length : ℚ))
  else 0

/-- The constants the source substitutes for the commented-out store queries
(source lines 453-457). -/
def stub_execution_times : List Int := [1, 2, 3]

/-- The stubbed run statuses (source line 457). -/
def stub_runs : List String := ["COMPLETED", "FAILED"]

/-- The stubbed cost breakdown (source lines 468-471). -/
def stub_cost_breakdown : List (String × ℚ) := [("agent1", 1), ("agent2", 2)]

/-- The `SummaryFields` record `_gather_summary_data` populates from its
local values (source lines 453-501; identical for both summary kinds). -/
def gather_fields : SummaryFields :=
  { total_credits_used := 3
    total_executions := 2
    most_used_agent := "Some"
    total_execution_time := stub_execution_times.sum
    successful_runs := successful_runs_of stub_runs
    failed_runs := failed_runs_of stub_runs
    average_execution_time := average_execution_time_of stub_execution_times
    cost_breakdown := stub_cost_breakdown }

/-- `_gather_summary_data` (source lines 425-503): build the summary matching
the event type and params; any other combination raises
`ValueError("Invalid event type or params")`, modelled as `Except.error`. -/
def _gather_summary_data (user_id : String) (event_type : NotificationType)
    (params : BaseSummaryParams) : Except String BaseSummaryData :=
  let _ := user_id
  match event_type, params with
  | .DAILY_SUMMARY, .daily date => .ok (.daily gather_fields date)
  | .WEEKLY_SUMMARY, .weekly start_date end_date =>
      .ok (.weekly gather_fields start_date end_date)
  | _, _ => .error "Invalid event type or params"

/-- One recorded invocation of `send_templated` from the summary handler; the
payload is the `NotificationEventModel` rebuilt around the gathered summary
(source lines 680-691). -/
structure SummarySent where
  notification : NotificationType
  user_email : String
  data_user_id : String
  data : BaseSummaryData
  user_unsub_link : String
deriving DecidableEq, Repr

/-- `_process_summary` (source lines 650-695). -/
def _process_summary (w : World) (m : RawMessage) : Bool × List SummarySent :=
  match m.parse_summary with
  | none => (false, [])
  | some model =>
    match w.store.emails model.user_id with
    | none => (false, [])
    | some recipient_email =>
      if !(_should_email_user_based_on_preference w.store model.user_id model.type) then
        (true, [])
      else
        match _gather_summary_data model.user_id model.type model.data with
        | .error _ => (false, [])
        | .ok summary_data =>
          let sent : SummarySent :=
            ⟨model.type, recipient_email, model.user_id, summary_data,
              generate_unsubscribe_link model.user_id⟩
          if w.sendFails then (false, [sent]) else (true, [sent])

/-- The outcome of one `_run_queue` iteration for a fetched message. -/
inductive MessageDisposition
  | nothing
  | acked
  | rejected_no_requeue
deriving DecidableEq, Repr

/-- What `queue.get(timeout=1.0, no_ack=False)` yielded this round. -/
inductive QueueFetch
  | empty
  | timeout
  | message (m : RawMessage)

/-- `_run_queue` (source lines 697-726): ack on `processed=true`, otherwise
`reject(requeue=False)`; an empty queue or a get timeout is benign. -/
def _run_queue (process_func : RawMessage → Bool) (fetch : QueueFetch) :
    MessageDisposition :=
  match fetch with
  | .empty => .nothing
  | .timeout => .nothing
  | .message msg =>
    if process_func msg then .acked else .rejected_no_requeue

/-- Modelled from the spec: `NotificationTypeOverride(event_type).strategy`
(backend/data/notifications.py, not under src/) maps each type to its
delivery strategy (§2 / §4.1). -/
def strategy : NotificationType → QueueType
  | .AGENT_RUN => .IMMEDIATE
  | .BATCH_T => .BATCH
  | .DAILY_SUMMARY => .SUMMARY
  | .WEEKLY_SUMMARY => .SUMMARY
  | .REFUND_REQUEST => .ADMIN

/-- Modelled from the spec §6: `event_type.value` is the enum member's name
string (the wire `type` field holds one of the enum names). -/
def type_value : NotificationType → String
  | .AGENT_RUN => "AGENT_RUN"
  | .BATCH_T => "BATCH_T"
  | .DAILY_SUMMARY => "DAILY_SUMMARY"
  | .WEEKLY_SUMMARY => "WEEKLY_SUMMARY"
  | .REFUND_REQUEST => "REFUND_REQUEST"

/-- The lowercase strategy token of the routing-key schema (spec glossary). -/
def strategy_token : QueueType → String
  | .IMMEDIATE => "immediate"
  | .ADMIN => "admin"
  | .BATCH => "batch"
  | .SUMMARY => "summary"
  | .BACKOFF => "backoff"

/-- `get_routing_key` (source lines 141-154): an if/elif chain over the
strategy with a final fallback that omits the strategy segment. -/
def get_routing_key (event_type : NotificationType) : String :=
  let strat := strategy event_type
  if strat = QueueType.IMMEDIATE then "notification.immediate." ++ type_value event_type
  else if strat = QueueType.BACKOFF then "notification.backoff." ++ type_value event_type
  else if strat = QueueType.ADMIN then "notification.admin." ++ type_value event_type
  else if strat = QueueType.BATCH then "notification.batch." ++ type_value event_type
  else if strat = QueueType.SUMMARY then "notification.summary." ++ type_value event_type
  else "notification." ++ type_value event_type

/-- Accumulator of the batch sweep: the store as mutated so far, the
`send_templated` invocations, and `processed_count`. -/
structure SweepAcc where
  store : Store
  sends : List BatchSent
  processed_count : Nat

/-- The body of the inner loop of `_process_existing_batches` (source lines
281-371) for one batch row.  `Except.error` models an exception escaping to
the outer try (only `send_templated` can raise here), aborting the whole
sweep; every `continue` is an `Except.ok`. -/
def sweep_one_batch (now : Int) (sendFails : Bool)
    (notification_type : NotificationType) (acc : SweepAcc) (user_id : String) :
    Except (Store × List BatchSent) SweepAcc :=
  match oldest_created_at (acc.store.batches user_id notification_type) with
  | none => .ok acc
  | some oldest =>
    if oldest + get_batch_delay notification_type < now then
      match acc.store.emails user_id with
      | none => .ok acc
      | some recipient_email =>
        if !(_should_email_user_based_on_preference acc.store user_id notification_type) then
          .ok { acc with
                  store := empty_user_notification_batch acc.store user_id notification_type }
        else
          let rows := acc.store.batches user_id notification_type
          if rows = [] then
            .ok { acc with
                    store := empty_user_notification_batch acc.store user_id notification_type }
          else
            let events := rows.filter (fun r => r.valid)
            let sent : BatchSent :=
              ⟨notification_type, recipient_email, events,
                generate_unsubscribe_link user_id⟩
            if sendFails then
              .error (acc.store, acc.sends ++ [sent])
            else
              .ok { store := empty_user_notification_batch acc.store user_id notification_type
                    sends := acc.sends ++ [sent]
                    processed_count := acc.processed_count + 1 }
    else .ok acc

/-- One iteration of the outer loop of `_process_existing_batches`: list the
batch rows of this type (`get_all_batches_by_type`), then run the inner loop
over them. -/
def sweep_type (now : Int) (sendFails : Bool) (acc : SweepAcc)
    (notification_type : NotificationType) :
    Except (Store × List BatchSent) SweepAcc :=
  let users :=
    (acc.store.batch_keys.filter (fun k => decide (k.2 = notification_type))).map
      (fun k => k.1)
  users.foldlM (sweep_one_batch now sendFails notification_type) acc

/-- The audit record `_process_existing_batches` returns, together with the
final store and the recorded sends. -/
structure SweepResult where
  success : Bool
  processed_count : Nat
  store : Store
  sends : List BatchSent

/-- `_process_existing_batches` (source lines 271-388): sweep every listed
type; an exception anywhere yields the `success=false` audit record with the
mutations made so far kept. -/
def _process_existing_batches (now : Int) (sendFails : Bool) (s : Store)
    (notification_types : List NotificationType) : SweepResult :=
  match notification_types.foldlM (sweep_type now sendFails) ⟨s, [], 0⟩ with
  | .ok acc => ⟨true, acc.processed_count, acc.store, acc.sends⟩
  | .error (s1, sends) => ⟨false, 0, s1, sends⟩

/-- An event published to the notifications exchange by the weekly-summary
trigger (`SummaryParamsEventModel`). -/
structure PublishedEvent where
  user_id : String
  type : NotificationType
  data : BaseSummaryParams
deriving DecidableEq, Repr

/-- `timedelta(days=7)` in seconds. -/
def seconds_per_day : Int := 86400

/-- `_queue_weekly_summary` (source lines 238-265): list the users active in
the trailing 7-day window and publish one WEEKLY_SUMMARY params event per
user, in order. -/
def _queue_weekly_summary (now : Int) (s : Store) : List PublishedEvent :=
  let start_time := now - 7 * seconds_per_day
  (s.active_users start_time now).map
    (fun user => ⟨user, NotificationType.WEEKLY_SUMMARY,
                   BaseSummaryParams.weekly start_time now⟩)

/-! ## Helper lemmas -/

/-- Reading back the appended batch row. -/
theorem batches_after_append (s : Store) (u : String) (t : NotificationType)
    (e : Event) :
    (create_or_add_to_user_notification_batch s u t e).batches u t
      = s.batches u t ++ [toDBEvent e] := by
  simp [create_or_add_to_user_notification_batch]

/-- Emptying a batch destroys exactly that row. -/
theorem batches_after_empty (s : Store) (u : String) (t : NotificationType) :
    (empty_user_notification_batch s u t).batches u t = [] := by
  simp [empty_user_notification_batch]

/-- A nonempty batch always has an oldest message. -/
theorem oldest_created_at_of_ne_nil (l : List DBNotificationEvent)
    (h : l ≠ []) : ∃ o, oldest_created_at l = some o := by
  cases l with
  | nil => exact absurd rfl h
  | cons x xs => exact ⟨_, rfl⟩

/-! ## C6: routing keys -/

/-- C6: for every notification type, the producer's routing key equals
`notification.` ++ the lowercase strategy token ++ `.` ++ the type name; the
chain in `get_routing_key` covers every member of the closed strategy enum,
so the no-strategy-segment fallback (its final line) is unreachable. -/
theorem routing_key_schema :
    ∀ t : NotificationType,
      get_routing_key t
        = "notification." ++ strategy_token (strategy t) ++ "." ++ type_value t := by
  intro t
  cases t <;> rfl

/-! ## C9: weekly summary fan-out -/

/-- C9: the weekly-summary trigger takes `start = now − 7 days`, lists the
active users of `[start, now]`, and publishes exactly one WEEKLY_SUMMARY
event per listed user, each carrying `\x7bstart_date := start, end_date := now\x7d`. -/
theorem queue_weekly_summary_spec (now : Int) (s : Store) :
    (_queue_weekly_summary now s).length
        = (s.active_users (now - 7 * seconds_per_day) now).length
    ∧ (∀ e ∈ _queue_weekly_summary now s,
         e.type = NotificationType.WEEKLY_SUMMARY
           ∧ e.data = BaseSummaryParams.weekly (now - 7 * seconds_per_day) now)
    ∧ (∀ u : String,
         ((_queue_weekly_summary now s).filter
             (fun e => decide (e.user_id = u))).length
           = ((s.active_users (now - 7 * seconds_per_day) now).filter
               (fun v => decide (v = u))).length) := by
  refine ⟨?_, ?_, ?_⟩
  · simp [_queue_weekly_summary]
  · intro e he
    simp only [_queue_weekly_summary, List.mem_map] at he
    obtain ⟨u, _, rfl⟩ := he
    exact ⟨rfl, rfl⟩
  · intro u
    simp only [_queue_weekly_summary, List.filter_map, List.length_map]
    congr 1

/-- Characterization of `_process_batch` for a parsed event whose user has an
email address and passes the eligibility check: the event is appended first,
and the flush decision follows the age of the oldest message of the
post-append batch. -/
theorem process_batch_eligible (w : World) (m : RawMessage) (event : Event)
    (addr : String) (o : Int)
    (hparse : m.parse_event = some event)
    (hemail : w.store.emails event.user_id = some addr)
    (helig : _should_email_user_based_on_preference w.store event.user_id event.type = true)
    (ho : oldest_created_at
            (w.store.batches event.user_id event.type ++ [toDBEvent event]) = some o) :
    _process_batch w m =
      (let s1 := create_or_add_to_user_notification_batch
                   w.store event.user_id event.type event
       let rows := w.store.batches event.user_id event.type ++ [toDBEvent event]
       let sent : BatchSent :=
         ⟨event.type, addr, rows, generate_unsubscribe_link event.user_id⟩
       if o + get_batch_delay event.type < w.now then
         if rows.all (fun r => r.valid) then
           if w.sendFails then (false, s1, [sent])
           else (true, empty_user_notification_batch s1 event.user_id event.type, [sent])
         else (false, s1, [])
       else (false, s1, [])) := by
  have hne : w.store.batches event.user_id event.type ++ [toDBEvent event] ≠ [] := by
    simp
  simp only [_process_batch, _parse_message, hparse, hemail, helig,
    _should_batch, batches_after_append, ho, Bool.not_true, Bool.false_eq_true,
    if_false]
  by_cases hc : o + get_batch_delay event.type < w.now
  · simp only [hc, if_true, Bool.not_true, Bool.not_false, Bool.false_eq_true,
      if_false, Bool.true_eq_false, if_neg hne, batches_after_append]
  · simp only [hc, if_false, Bool.not_false, Bool.true_eq_false]
    rfl

/-! ## C1: batch flush decision -/

/-- C1: for a BATCH event whose user has an email address, is eligible, and
whose stored rows all re-validate, `send_templated` is invoked if and only if
the oldest stored message for `(user_id, type)` — the current event included,
since it is appended first — satisfies `oldest.created_at + max_delay < now`;
and every send carries exactly the post-append batch, so a send can only
happen after the current event was appended. -/
theorem batch_send_iff_aged (w : World) (m : RawMessage) (event : Event)
    (hparse : _parse_message m = some event)
    (hemail : ∃ addr, w.store.emails event.user_id = some addr)
    (helig : _should_email_user_based_on_preference w.store event.user_id event.type = true)
    (hvalid : (w.store.batches event.user_id event.type).all (fun r => r.valid) = true) :
    ((_process_batch w m).2.2 ≠ []
       ↔ ∃ o, oldest_created_at
                (w.store.batches event.user_id event.type ++ [toDBEvent event]) = some o
            ∧ o + get_batch_delay event.type < w.now)
    ∧ ∀ x ∈ (_process_batch w m).2.2,
        x.data = w.store.batches event.user_id event.type ++ [toDBEvent event] := by
  obtain ⟨addr, haddr⟩ := hemail
  obtain ⟨o, ho⟩ := oldest_created_at_of_ne_nil
    (w.store.batches event.user_id event.type ++ [toDBEvent event]) (by simp)
  have h := process_batch_eligible w m event addr o hparse haddr helig ho
  rw [h]
  have hall : ((w.store.batches event.user_id event.type ++ [toDBEvent event]).all
      (fun r => r.valid)) = true := by
    simp only [List.all_append, hvalid, Bool.true_and, List.all_cons,
      List.all_nil, Bool.and_true, toDBEvent]
  by_cases hc : o + get_batch_delay event.type < w.now
  · simp only [hc, if_true, hall]
    refine ⟨⟨fun _ => ⟨o, ho, hc⟩, fun _ => ?_⟩, fun x hx => ?_⟩
    · cases hw : w.sendFails <;> simp [hw]
    · cases hw : w.sendFails <;> simp only [hw] at hx <;> simp at hx <;>
        simp [hx]
  · simp only [hc, if_false]
    refine ⟨⟨fun hcon => absurd rfl hcon, ?_⟩, fun x hx => ?_⟩
    · rintro ⟨o2, ho2, hlt⟩
      rw [ho] at ho2
      cases ho2
      exact absurd hlt hc
    · simp at hx

/-! ## C2: ineligible batch events -/

/-- C2 counterexample setup: user u1 exists with an email but is not
verified, and has one stored BATCH_T row. -/
def c2_store : Store :=
  { emails := fun u => if u = "u1" then some "u1@x" else none
    verified := fun _ => false
    prefs := fun _ _ => none
    batches := fun u t =>
      if u = "u1" ∧ t = NotificationType.BATCH_T then
        [⟨NotificationType.BATCH_T, "old", 0, true⟩]
      else []
    batch_keys := [("u1", NotificationType.BATCH_T)]
    active_users := fun _ _ => [] }

/-- C2 counterexample world and message: a BATCH_T event for u1 well past
the 5-minute delay. -/
def c2_world : World := ⟨c2_store, 1000, false⟩

/-- The parsed BATCH_T message of the C2 counterexample. -/
def c2_msg : RawMessage :=
  ⟨some ⟨"u1", NotificationType.BATCH_T, "new", 600⟩, none⟩

/-- C2 counterexample: the user is ineligible (email unverified), yet
`_process_batch` returns processed=true WITHOUT emptying the stored batch —
the claimed `empty_batch` call does not happen on this path. -/
theorem batch_ineligible_counterexample :
    _should_email_user_based_on_preference c2_world.store "u1"
        NotificationType.BATCH_T = false
    ∧ (_process_batch c2_world c2_msg).1 = true
    ∧ ((_process_batch c2_world c2_msg).2.1.batches "u1"
          NotificationType.BATCH_T).length = 1 := by
  decide

/-- C2 (amended): for a BATCH event whose user has an email address but is
ineligible, `_process_batch` returns processed=true and has NO side effect at
all: the store is returned unchanged (the stored batch is neither emptied nor
appended to) and nothing is sent. -/
theorem batch_ineligible_no_side_effect (w : World) (m : RawMessage)
    (event : Event)
    (hparse : _parse_message m = some event)
    (hemail : ∃ addr, w.store.emails event.user_id = some addr)
    (helig : _should_email_user_based_on_preference w.store event.user_id event.type = false) :
    _process_batch w m = (true, w.store, []) := by
  obtain ⟨addr, haddr⟩ := hemail
  have hp : m.parse_event = some event := hparse
  simp [_process_batch, _parse_message, hp, haddr, helig]

/-- C2 witness: the amended theorem applied at the counterexample input. -/
theorem batch_ineligible_no_side_effect_witness :
    _process_batch c2_world c2_msg = (true, c2_world.store, []) :=
  batch_ineligible_no_side_effect c2_world c2_msg
    ⟨"u1", NotificationType.BATCH_T, "new", 600⟩ rfl ⟨"u1@x", rfl⟩ rfl

/-! ## C3: send failure keeps the batch -/

/-- C3: during an eligible, aged-out, dispatcher-driven flush, if the email
send raises then `_process_batch` returns processed=false and the stored
batch is NOT emptied (it still holds every prior event plus the current one);
and conversely the batch ends up empty only when the send did not fail and a
send was actually invoked. -/
theorem batch_send_failure_keeps_batch (w : World) (m : RawMessage)
    (event : Event)
    (hparse : _parse_message m = some event)
    (hemail : ∃ addr, w.store.emails event.user_id = some addr)
    (helig : _should_email_user_based_on_preference w.store event.user_id event.type = true)
    (hvalid : (w.store.batches event.user_id event.type).all (fun r => r.valid) = true)
    (haged : ∃ o, oldest_created_at
               (w.store.batches event.user_id event.type ++ [toDBEvent event]) = some o
             ∧ o + get_batch_delay event.type < w.now) :
    (w.sendFails = true →
        (_process_batch w m).1 = false
      ∧ (_process_batch w m).2.1.batches event.user_id event.type
          = w.store.batches event.user_id event.type ++ [toDBEvent event])
    ∧ ((_process_batch w m).2.1.batches event.user_id event.type = []
         → w.sendFails = false ∧ (_process_batch w m).2.2 ≠ []) := by
  obtain ⟨addr, haddr⟩ := hemail
  obtain ⟨o, ho, hc⟩ := haged
  have h := process_batch_eligible w m event addr o hparse haddr helig ho
  rw [h]
  have hall : ((w.store.batches event.user_id event.type ++ [toDBEvent event]).all
      (fun r => r.valid)) = true := by
    simp only [List.all_append, hvalid, Bool.true_and, List.all_cons,
      List.all_nil, Bool.and_true, toDBEvent]
  simp only [hc, if_true, hall]
  cases hw : w.sendFails
  · simp [batches_after_empty]
  · simp [batches_after_append]

/-- C1 witness setup: an eligible, verified user with one stored BATCH_T row
old enough to age the batch out. -/
def c1_store : Store :=
  { emails := fun u => if u = "u1" then some "u1@x" else none
    verified := fun _ => true
    prefs := fun _ _ => none
    batches := fun u t =>
      if u = "u1" ∧ t = NotificationType.BATCH_T then
        [⟨NotificationType.BATCH_T, "old", 0, true⟩]
      else []
    batch_keys := [("u1", NotificationType.BATCH_T)]
    active_users := fun _ _ => [] }

/-- C1 witness world: clock at t=1000s, email transport healthy. -/
def c1_world : World := ⟨c1_store, 1000, false⟩

/-- C1 witness event: a fresh BATCH_T event for u1 at t=600s. -/
def c1_event : Event := ⟨"u1", NotificationType.BATCH_T, "new", 600⟩

/-- C1 witness message. -/
def c1_msg : RawMessage := ⟨some c1_event, none⟩

/-- C1 witness: the theorem applied at a concrete aged-out batch. -/
theorem batch_send_iff_aged_witness :
    ((_process_batch c1_world c1_msg).2.2 ≠ []
       ↔ ∃ o, oldest_created_at
                (c1_world.store.batches "u1" NotificationType.BATCH_T
                  ++ [toDBEvent c1_event]) = some o
            ∧ o + get_batch_delay NotificationType.BATCH_T < c1_world.now)
    ∧ ∀ x ∈ (_process_batch c1_world c1_msg).2.2,
        x.data = c1_world.store.batches "u1" NotificationType.BATCH_T
          ++ [toDBEvent c1_event] :=
  batch_send_iff_aged c1_world c1_msg c1_event rfl ⟨"u1@x", rfl⟩ (by decide)
    (by decide)

/-- C3 witness setup: same store as an aged-out eligible flush, but the email
transport raises on this send. -/
def c3_world : World := ⟨c1_store, 1000, true⟩

/-- C3 witness event. -/
def c3_event : Event := ⟨"u1", NotificationType.BATCH_T, "new3", 600⟩

/-- C3 witness message. -/
def c3_msg : RawMessage := ⟨some c3_event, none⟩

/-- C3 witness: the theorem applied at a concrete failing send. -/
theorem batch_send_failure_keeps_batch_witness :
    (c3_world.sendFails = true →
        (_process_batch c3_world c3_msg).1 = false
      ∧ (_process_batch c3_world c3_msg).2.1.batches "u1" NotificationType.BATCH_T
          = c3_world.store.batches "u1" NotificationType.BATCH_T ++ [toDBEvent c3_event])
    ∧ ((_process_batch c3_world c3_msg).2.1.batches "u1" NotificationType.BATCH_T = []
         → c3_world.sendFails = false ∧ (_process_batch c3_world c3_msg).2.2 ≠ []) :=
  batch_send_failure_keeps_batch c3_world c3_msg c3_event rfl ⟨"u1@x", rfl⟩
    (by decide) (by decide) ⟨0, by decide, by decide⟩

/-! ## C4: eligibility gates the handlers -/

/-- C4 counterexample setup: u1 has not verified their email. -/
def c4_store : Store :=
  { emails := fun u => if u = "u1" then some "u1@x" else none
    verified := fun _ => false
    prefs := fun _ _ => none
    batches := fun _ _ => []
    batch_keys := []
    active_users := fun _ _ => [] }

/-- C4 counterexample world. -/
def c4_world : World := ⟨c4_store, 1000, false⟩

/-- C4 counterexample event: an ADMIN-strategy event for the ineligible u1. -/
def c4_event : Event := ⟨"u1", NotificationType.REFUND_REQUEST, "refund", 0⟩

/-- C4 counterexample message. -/
def c4_msg : RawMessage := ⟨some c4_event, none⟩

/-- C4 counterexample: u1 is ineligible (email unverified), yet the admin
handler still invokes `send_templated` for u1's event — the claimed
invariant does not cover `_process_admin_message`, which never consults
eligibility. -/
theorem admin_handler_sends_when_ineligible :
    _should_email_user_based_on_preference c4_world.store "u1"
        NotificationType.REFUND_REQUEST = false
    ∧ ((_process_admin_message c4_world c4_msg).2).length = 1
    ∧ ((_process_admin_message c4_world c4_msg).2).map (fun s => s.data)
        = [c4_event] := by
  decide

/-- C4 (amended): for an ineligible user (email unverified or per-type
preference false), the user-facing handlers — immediate, batch, and summary —
never invoke `send_templated` for that user's events; the admin handler is
the exception, sending to the configured admin address without consulting
eligibility. -/
theorem user_handlers_never_send_when_ineligible (w : World) (m : RawMessage)
    (u : String) (t : NotificationType)
    (helig : _should_email_user_based_on_preference w.store u t = false) :
    (∀ event : Event, _parse_message m = some event →
        event.user_id = u → event.type = t →
        (_process_immediate w m).2 = [] ∧ (_process_batch w m).2.2 = [])
    ∧ (∀ sevent : SummaryEvent, m.parse_summary = some sevent →
        sevent.user_id = u → sevent.type = t →
        (_process_summary w m).2 = []) := by
  constructor
  · intro event hm hu ht
    have hp : m.parse_event = some event := hm
    subst hu
    subst ht
    constructor
    · cases he : w.store.emails event.user_id with
      | none => simp [_process_immediate, _parse_message, hp, he]
      | some a => simp [_process_immediate, _parse_message, hp, he, helig]
    · cases he : w.store.emails event.user_id with
      | none => simp [_process_batch, _parse_message, hp, he]
      | some a => simp [_process_batch, _parse_message, hp, he, helig]
  · intro sevent hm hu ht
    subst hu
    subst ht
    cases he : w.store.emails sevent.user_id with
    | none => simp [_process_summary, hm, he]
    | some a => simp [_process_summary, hm, he, helig]

/-- C4 witness event for the user-facing handlers. -/
def c4b_event : Event := ⟨"u1", NotificationType.WEEKLY_SUMMARY, "d", 0⟩

/-- C4 witness summary event. -/
def c4b_sevent : SummaryEvent :=
  ⟨"u1", NotificationType.WEEKLY_SUMMARY, .weekly 0 7⟩

/-- C4 witness message, parseable on both paths. -/
def c4b_msg : RawMessage := ⟨some c4b_event, some c4b_sevent⟩

/-- C4 witness: the amended theorem applied to an unverified user's events
across all three user-facing handlers. -/
theorem user_handlers_never_send_witness :
    ((_process_immediate c4_world c4b_msg).2 = []
      ∧ (_process_batch c4_world c4b_msg).2.2 = [])
    ∧ (_process_summary c4_world c4b_msg).2 = [] :=
  ⟨(user_handlers_never_send_when_ineligible c4_world c4b_msg "u1"
      NotificationType.WEEKLY_SUMMARY (by decide)).1 c4b_event rfl rfl rfl,
   (user_handlers_never_send_when_ineligible c4_world c4b_msg "u1"
      NotificationType.WEEKLY_SUMMARY (by decide)).2 c4b_sevent rfl rfl rfl⟩

/-! ## C5: sweep of aged batches, ineligible or email-less users -/

/-- C5 counterexample setup: an aged-out BATCH_T batch for u1, but the store
has no email address for u1. -/
def c5_store : Store :=
  { emails := fun _ => none
    verified := fun _ => true
    prefs := fun _ _ => none
    batches := fun u t =>
      if u = "u1" ∧ t = NotificationType.BATCH_T then
        [⟨NotificationType.BATCH_T, "old", 0, true⟩]
      else []
    batch_keys := [("u1", NotificationType.BATCH_T)]
    active_users := fun _ _ => [] }

/-- C5 counterexample: the batch is aged out and u1's email is missing, yet
the sweep does NOT empty the stored batch — it logs and skips the row, so
the claimed emptying does not happen for the missing-email case. -/
theorem sweep_missing_email_counterexample :
    c5_store.emails "u1" = none
    ∧ (∃ o, oldest_created_at
          (c5_store.batches "u1" NotificationType.BATCH_T) = some o
        ∧ o + get_batch_delay NotificationType.BATCH_T < 1000)
    ∧ (_process_existing_batches 1000 false c5_store
        [NotificationType.BATCH_T]).success = true
    ∧ ((_process_existing_batches 1000 false c5_store
          [NotificationType.BATCH_T]).store.batches "u1"
          NotificationType.BATCH_T).length = 1
    ∧ (_process_existing_batches 1000 false c5_store
        [NotificationType.BATCH_T]).sends = [] :=
  ⟨rfl, ⟨0, by decide, by decide⟩, by decide, by decide, by decide⟩

/-- C5 (amended): for an aged-out batch visited by the sweep, an ineligible
user (with an email on file) gets the batch emptied without any send and the
sweep continues, but a user with NO email on file is skipped: nothing is
sent AND the batch is left untouched, the sweep continuing either way. -/
theorem sweep_aged_batch_ineligible_or_no_email (now : Int) (sendFails : Bool)
    (t : NotificationType) (acc : SweepAcc) (u : String)
    (haged : ∃ o, oldest_created_at (acc.store.batches u t) = some o
              ∧ o + get_batch_delay t < now) :
    (acc.store.emails u = none →
        sweep_one_batch now sendFails t acc u = .ok acc)
    ∧ (∀ addr, acc.store.emails u = some addr →
        _should_email_user_based_on_preference acc.store u t = false →
        sweep_one_batch now sendFails t acc u
          = .ok { acc with
                    store := empty_user_notification_batch acc.store u t }) := by
  obtain ⟨o, ho, hc⟩ := haged
  constructor
  · intro he
    simp [sweep_one_batch, ho, hc, he]
  · intro addr he helig
    simp [sweep_one_batch, ho, hc, he, helig]

/-- C5 second witness setup: the same aged batch, email on file but the user
is unverified, hence ineligible. -/
def c5b_store : Store :=
  { emails := fun u => if u = "u1" then some "u1@x" else none
    verified := fun _ => false
    prefs := fun _ _ => none
    batches := fun u t =>
      if u = "u1" ∧ t = NotificationType.BATCH_T then
        [⟨NotificationType.BATCH_T, "old", 0, true⟩]
      else []
    batch_keys := [("u1", NotificationType.BATCH_T)]
    active_users := fun _ _ => [] }

/-- C5 witness: the amended theorem applied at a concrete missing-email batch
and a concrete ineligible batch. -/
theorem sweep_aged_batch_witness :
    (sweep_one_batch 1000 false NotificationType.BATCH_T ⟨c5_store, [], 0⟩ "u1"
        = .ok ⟨c5_store, [], 0⟩)
    ∧ (sweep_one_batch 1000 false NotificationType.BATCH_T ⟨c5b_store, [], 0⟩ "u1"
        = .ok ⟨empty_user_notification_batch c5b_store "u1"
                 NotificationType.BATCH_T, [], 0⟩) :=
  ⟨(sweep_aged_batch_ineligible_or_no_email 1000 false NotificationType.BATCH_T
      ⟨c5_store, [], 0⟩ "u1" ⟨0, by decide, by decide⟩).1 rfl,
   (sweep_aged_batch_ineligible_or_no_email 1000 false NotificationType.BATCH_T
      ⟨c5b_store, [], 0⟩ "u1" ⟨0, by decide, by decide⟩).2 "u1@x" rfl (by decide)⟩

/-! ## C7: parse errors always reject -/

/-- C7: a message that fails JSON decoding or schema validation makes every
handler return processed=false, and `_run_queue` then rejects it with
requeue=false; a ParseError can never yield processed=true. -/
theorem parse_error_always_rejected (w : World) (m : RawMessage)
    (hev : m.parse_event = none) (hsum : m.parse_summary = none) :
    (_process_immediate w m).1 = false
    ∧ (_process_admin_message w m).1 = false
    ∧ (_process_batch w m).1 = false
    ∧ (_process_summary w m).1 = false
    ∧ _run_queue (fun msg => (_process_immediate w msg).1) (.message m)
        = .rejected_no_requeue
    ∧ _run_queue (fun msg => (_process_admin_message w msg).1) (.message m)
        = .rejected_no_requeue
    ∧ _run_queue (fun msg => (_process_batch w msg).1) (.message m)
        = .rejected_no_requeue
    ∧ _run_queue (fun msg => (_process_summary w msg).1) (.message m)
        = .rejected_no_requeue := by
  have h1 : (_process_immediate w m).1 = false := by
    simp [_process_immediate, _parse_message, hev]
  have h2 : (_process_admin_message w m).1 = false := by
    simp [_process_admin_message, _parse_message, hev]
  have h3 : (_process_batch w m).1 = false := by
    simp [_process_batch, _parse_message, hev]
  have h4 : (_process_summary w m).1 = false := by
    simp [_process_summary, hsum]
  refine ⟨h1, h2, h3, h4, ?_, ?_, ?_, ?_⟩ <;>
    simp [_run_queue, h1, h2, h3, h4]

/-- C7 witness world. -/
def c7_world : World := ⟨c5b_store, 1000, false⟩

/-- C7 witness message: fails validation on both parse paths. -/
def c7_msg : RawMessage := ⟨none, none⟩

/-- C7 witness: the theorem applied to a concrete malformed message. -/
theorem parse_error_always_rejected_witness :
    (_process_immediate c7_world c7_msg).1 = false
    ∧ (_process_admin_message c7_world c7_msg).1 = false
    ∧ (_process_batch c7_world c7_msg).1 = false
    ∧ (_process_summary c7_world c7_msg).1 = false
    ∧ _run_queue (fun msg => (_process_immediate c7_world msg).1) (.message c7_msg)
        = .rejected_no_requeue
    ∧ _run_queue (fun msg => (_process_admin_message c7_world msg).1) (.message c7_msg)
        = .rejected_no_requeue
    ∧ _run_queue (fun msg => (_process_batch c7_world msg).1) (.message c7_msg)
        = .rejected_no_requeue
    ∧ _run_queue (fun msg => (_process_summary c7_world msg).1) (.message c7_msg)
        = .rejected_no_requeue :=
  parse_error_always_rejected c7_world c7_msg rfl rfl

/-! ## C8: summary aggregation -/

/-- Every run is counted exactly once, as successful or as failed. -/
theorem successful_add_failed (runs : List String) :
    successful_runs_of runs + failed_runs_of runs = runs.length := by
  unfold successful_runs_of failed_runs_of
  simp only [ne_eq, decide_not]
  induction runs with
  | nil => rfl
  | cons r rest ih =>
    by_cases h : r = "COMPLETED" <;>
      simp only [List.filter_cons, h, decide_True, decide_False, Bool.not_true,
        Bool.not_false, Bool.false_eq_true, if_true, if_false,
        List.length_cons] <;>
      omega

/-- C8: `_gather_summary_data` returns the populated summary for a matching
type/params pair — `successful_runs` counts status COMPLETED, `failed_runs`
is the total minus the successful, `average_execution_time` is the mean of
the execution times (0 when the list is empty), `total_execution_time` their
sum — and fails with the invalid-type error on every other combination. -/
theorem gather_summary_data_spec :
    (∀ (user_id : String) (date : Int),
        _gather_summary_data user_id NotificationType.DAILY_SUMMARY
          (BaseSummaryParams.daily date)
          = .ok (BaseSummaryData.daily gather_fields date))
    ∧ (∀ (user_id : String) (sd ed : Int),
        _gather_summary_data user_id NotificationType.WEEKLY_SUMMARY
          (BaseSummaryParams.weekly sd ed)
          = .ok (BaseSummaryData.weekly gather_fields sd ed))
    ∧ gather_fields.successful_runs = successful_runs_of stub_runs
    ∧ (∀ runs : List String, successful_runs_of runs
         = (runs.filter (fun run => decide (run = "COMPLETED"))).length)
    ∧ (∀ runs : List String,
         failed_runs_of runs = runs.length - successful_runs_of runs)
    ∧ (∀ ts : List Int, average_execution_time_of ts
         = if ts = [] then 0 else ((ts.sum : ℚ) / (ts.length : ℚ)))
    ∧ gather_fields.total_execution_time = stub_execution_times.sum
    ∧ (∀ (user_id : String) (t : NotificationType) (p : BaseSummaryParams),
        ¬ ((t = NotificationType.DAILY_SUMMARY
              ∧ ∃ d, p = BaseSummaryParams.daily d)
            ∨ (t = NotificationType.WEEKLY_SUMMARY
              ∧ ∃ sd ed, p = BaseSummaryParams.weekly sd ed)) →
        _gather_summary_data user_id t p
          = .error "Invalid event type or params") := by
  refine ⟨fun _ _ => rfl, fun _ _ _ => rfl, rfl, fun _ => rfl, ?_, ?_, rfl, ?_⟩
  · intro runs
    have h := successful_add_failed runs
    omega
  · intro ts
    by_cases h : ts = [] <;> simp [average_execution_time_of, h]
  · intro user_id t p h
    cases t <;> cases p <;> try rfl
    · exact absurd (Or.inl ⟨rfl, _, rfl⟩) h
    · exact absurd (Or.inr ⟨rfl, _, _, rfl⟩) h

/-- C8 witness: a mismatched combination errors, the failed-run count is the
complement of the successful one on a concrete list, and a matching daily
request returns the populated summary. -/
theorem gather_summary_data_witness :
    _gather_summary_data "u1" NotificationType.AGENT_RUN
        (BaseSummaryParams.daily 0) = .error "Invalid event type or params"
    ∧ failed_runs_of ["COMPLETED", "FAILED", "FAILED"]
        = 3 - successful_runs_of ["COMPLETED", "FAILED", "FAILED"]
    ∧ _gather_summary_data "u1" NotificationType.DAILY_SUMMARY
        (BaseSummaryParams.daily 42) = .ok (BaseSummaryData.daily gather_fields 42) :=
  ⟨gather_summary_data_spec.2.2.2.2.2.2.2 "u1" NotificationType.AGENT_RUN
      (BaseSummaryParams.daily 0) (by rintro (⟨h, _⟩ | ⟨h, _⟩) <;> cases h),
   by simpa using gather_summary_data_spec.2.2.2.2.1 ["COMPLETED", "FAILED", "FAILED"],
   gather_summary_data_spec.1 "u1" 42⟩

/-! ## C10: invalid stored rows — dispatcher flush vs sweep -/

/-- C10: when a stored row of an aged-out batch fails re-validation, the two
flush paths diverge.  The dispatcher-driven `_process_batch` aborts: no send,
processed=false, and the batch is left unemptied (still holding every prior
row plus the just-appended event).  The sweep instead skips the invalid row,
sends the remaining validated rows, and empties the batch. -/
theorem invalid_row_flush_divergence (w : World) (m : RawMessage)
    (event : Event) (addr : String)
    (hparse : _parse_message m = some event)
    (hemail : w.store.emails event.user_id = some addr)
    (helig : _should_email_user_based_on_preference w.store event.user_id event.type = true)
    (hinvalid : (w.store.batches event.user_id event.type).all (fun r => r.valid) = false)
    (haged_app : ∃ o, oldest_created_at
        (w.store.batches event.user_id event.type ++ [toDBEvent event]) = some o
      ∧ o + get_batch_delay event.type < w.now)
    (haged : ∃ o, oldest_created_at (w.store.batches event.user_id event.type) = some o
      ∧ o + get_batch_delay event.type < w.now)
    (hkeys : w.store.batch_keys = [(event.user_id, event.type)]) :
    ((_process_batch w m).1 = false
      ∧ (_process_batch w m).2.2 = []
      ∧ (_process_batch w m).2.1.batches event.user_id event.type
          = w.store.batches event.user_id event.type ++ [toDBEvent event])
    ∧ ((_process_existing_batches w.now false w.store [event.type]).success = true
      ∧ (_process_existing_batches w.now false w.store [event.type]).sends
          = [⟨event.type, addr,
              (w.store.batches event.user_id event.type).filter (fun r => r.valid),
              generate_unsubscribe_link event.user_id⟩]
      ∧ (_process_existing_batches w.now false w.store [event.type]).store.batches
          event.user_id event.type = []) := by
  obtain ⟨oa, hoa, hca⟩ := haged_app
  obtain ⟨ob, hob, hcb⟩ := haged
  have h := process_batch_eligible w m event addr oa hparse hemail helig hoa
  have hallf : ((w.store.batches event.user_id event.type ++ [toDBEvent event]).all
      (fun r => r.valid)) = false := by
    simp [List.all_append, hinvalid]
  refine ⟨?_, ?_⟩
  · rw [h]
    simp only [hca, if_true, hallf, Bool.false_eq_true, if_false,
      batches_after_append]
    exact ⟨trivial, trivial, trivial⟩
  · have hrows_ne : w.store.batches event.user_id event.type ≠ [] := by
      intro hnil
      rw [hnil] at hinvalid
      simp at hinvalid
    have hstep : sweep_one_batch w.now false event.type ⟨w.store, [], 0⟩ event.user_id
        = .ok ⟨empty_user_notification_batch w.store event.user_id event.type,
               [⟨event.type, addr,
                 (w.store.batches event.user_id event.type).filter (fun r => r.valid),
                 generate_unsubscribe_link event.user_id⟩], 1⟩ := by
      simp [sweep_one_batch, hob, hcb, hemail, helig, hrows_ne]
    have htype : sweep_type w.now false ⟨w.store, [], 0⟩ event.type
        = .ok ⟨empty_user_notification_batch w.store event.user_id event.type,
               [⟨event.type, addr,
                 (w.store.batches event.user_id event.type).filter (fun r => r.valid),
                 generate_unsubscribe_link event.user_id⟩], 1⟩ := by
      unfold sweep_type
      rw [hkeys]
      simp only [List.filter_cons, decide_True, if_true, List.filter_nil,
        List.map_cons, List.map_nil, List.foldlM_cons, List.foldlM_nil, hstep]
      rfl
    unfold _process_existing_batches
    rw [List.foldlM_cons, htype]
    simp only [List.foldlM_nil]
    exact ⟨rfl, rfl, batches_after_empty _ _ _⟩

/-- C10 witness setup: an aged BATCH_T batch holding one valid and one
corrupt stored row, for an eligible user with an email on file. -/
def c10_store : Store :=
  { emails := fun u => if u = "u1" then some "u1@x" else none
    verified := fun _ => true
    prefs := fun _ _ => none
    batches := fun u t =>
      if u = "u1" ∧ t = NotificationType.BATCH_T then
        [⟨NotificationType.BATCH_T, "good", 0, true⟩,
         ⟨NotificationType.BATCH_T, "corrupt", 10, false⟩]
      else []
    batch_keys := [("u1", NotificationType.BATCH_T)]
    active_users := fun _ _ => [] }

/-- C10 witness world: healthy transport, clock at t=1000s. -/
def c10_world : World := ⟨c10_store, 1000, false⟩

/-- C10 witness event. -/
def c10_event : Event := ⟨"u1", NotificationType.BATCH_T, "new", 600⟩

/-- C10 witness message. -/
def c10_msg : RawMessage := ⟨some c10_event, none⟩

/-- C10 witness: the divergence theorem applied at the concrete corrupt
batch. -/
theorem invalid_row_flush_divergence_witness :
    ((_process_batch c10_world c10_msg).1 = false
      ∧ (_process_batch c10_world c10_msg).2.2 = []
      ∧ (_process_batch c10_world c10_msg).2.1.batches "u1" NotificationType.BATCH_T
          = c10_world.store.batches "u1" NotificationType.BATCH_T
              ++ [toDBEvent c10_event])
    ∧ ((_process_existing_batches c10_world.now false c10_world.store
          [NotificationType.BATCH_T]).success = true
      ∧ (_process_existing_batches c10_world.now false c10_world.store
          [NotificationType.BATCH_T]).sends
          = [⟨NotificationType.BATCH_T, "u1@x",
              (c10_world.store.batches "u1" NotificationType.BATCH_T).filter
                (fun r => r.valid),
              generate_unsubscribe_link "u1"⟩]
      ∧ (_process_existing_batches c10_world.now false c10_world.store
          [NotificationType.BATCH_T]).store.batches "u1"
          NotificationType.BATCH_T = []) :=
  invalid_row_flush_divergence c10_world c10_msg c10_event "u1@x" rfl (by decide)
    (by decide) (by decide) ⟨0, by decide, by decide⟩ ⟨0, by decide, by decide⟩ rfl

end Notifications
